import Mathlib

/-!
Verification of the gemini type declarations (types/gemini/index.d.ts) and of
the minimal execution model the declarations describe.

The repository contains ambient TypeScript declarations for the gemini
visual-regression testing DSL (suites, capture states, action sequences,
browser skip rules, key constants) together with one usage example.  The
declarations themselves carry the enum encodings and constants verified below;
the runtime behaviour they document (suite inheritance, the capture scheduler,
lazy element resolution, error handling) is implemented outside this
repository, so those parts are modelled here from the specification and
verified against that model.
-/

namespace gemini

/-! ## Mouse buttons (from the source MouseButton enum) -/

/-- The MouseButton enum from the declarations: left, middle, right,
declared without initialisers. -/
inductive MouseButton where
  | left
  | middle
  | right
deriving DecidableEq, Repr

/-- TypeScript numeric-enum auto-numbering: members without initialisers are
numbered 0, 1, 2 in declaration order. -/
def MouseButton.toNat : MouseButton → Nat
  | .left => 0
  | .middle => 1
  | .right => 2

/-! ## Key constants (from the source top-level const declarations) -/

def NULL : String := "\uE000"
def CANCEL : String := "\uE001"
def HELP : String := "\uE002"
def BACK_SPACE : String := "\uE003"
def TAB : String := "\uE004"
def CLEAR : String := "\uE005"
def RETURN : String := "\uE006"
def ENTER : String := "\uE007"
def SHIFT : String := "\uE008"
def LEFT_SHIFT : String := "\uE008"
def CONTROL : String := "\uE009"
def LEFT_CONTROL : String := "\uE009"
def ALT : String := "\uE00A"
def LEFT_ALT : String := "\uE00A"
def PAUSE : String := "\uE00B"
def ESCAPE : String := "\uE00C"
def SPACE : String := "\uE00D"
def PAGE_UP : String := "\uE00E"
def PAGE_DOWN : String := "\uE00F"
def END : String := "\uE010"
def HOME : String := "\uE011"
def LEFT : String := "\uE012"
def ARROW_LEFT : String := "\uE012"
def UP : String := "\uE013"
def ARROW_UP : String := "\uE013"
def RIGHT : String := "\uE014"
def ARROW_RIGHT : String := "\uE014"
def DOWN : String := "\uE015"
def ARROW_DOWN : String := "\uE015"
def INSERT : String := "\uE016"
def DELETE : String := "\uE017"
def SEMICOLON : String := "\uE018"
def EQUALS : String := "\uE019"
def NUMPAD0 : String := "\uE01A"
def NUMPAD1 : String := "\uE01B"
def NUMPAD2 : String := "\uE01C"
def NUMPAD3 : String := "\uE01D"
def NUMPAD4 : String := "\uE01E"
def NUMPAD5 : String := "\uE01F"
def NUMPAD6 : String := "\uE020"
def NUMPAD7 : String := "\uE021"
def NUMPAD8 : String := "\uE022"
def NUMPAD9 : String := "\uE023"
def MULTIPLY : String := "\uE024"
def ADD : String := "\uE025"
def SEPARATOR : String := "\uE026"
def SUBTRACT : String := "\uE027"
def DECIMAL : String := "\uE028"
def DIVIDE : String := "\uE029"
def F1 : String := "\uE031"
def F2 : String := "\uE032"
def F3 : String := "\uE033"
def F4 : String := "\uE034"
def F5 : String := "\uE035"
def F6 : String := "\uE036"
def F7 : String := "\uE037"
def F8 : String := "\uE038"
def F9 : String := "\uE039"
def F10 : String := "\uE03A"
def F11 : String := "\uE03B"
def F12 : String := "\uE03C"
def COMMAND : String := "\uE03D"
def META : String := "\uE03D"
def ZENKAKU_HANKAKU : String := "\uE040"

/-! ## The Keys string enum (from the source) -/

/-- Members of the Keys string enum, one constructor per declared member
(alias members such as LEFT_SHIFT are distinct members with equal values,
exactly as in the TypeScript declaration). -/
inductive Keys where
  | NULL
  | CANCEL
  | HELP
  | BACK_SPACE
  | TAB
  | CLEAR
  | RETURN
  | ENTER
  | SHIFT
  | LEFT_SHIFT
  | CONTROL
  | LEFT_CONTROL
  | ALT
  | LEFT_ALT
  | PAUSE
  | ESCAPE
  | SPACE
  | PAGE_UP
  | PAGE_DOWN
  | END
  | HOME
  | LEFT
  | ARROW_LEFT
  | UP
  | ARROW_UP
  | RIGHT
  | ARROW_RIGHT
  | DOWN
  | ARROW_DOWN
  | INSERT
  | DELETE
  | SEMICOLON
  | EQUALS
  | NUMPAD0
  | NUMPAD1
  | NUMPAD2
  | NUMPAD3
  | NUMPAD4
  | NUMPAD5
  | NUMPAD6
  | NUMPAD7
  | NUMPAD8
  | NUMPAD9
  | MULTIPLY
  | ADD
  | SEPARATOR
  | SUBTRACT
  | DECIMAL
  | DIVIDE
  | F1
  | F2
  | F3
  | F4
  | F5
  | F6
  | F7
  | F8
  | F9
  | F10
  | F11
  | F12
  | COMMAND
  | META
  | ZENKAKU_HANKAKU
deriving DecidableEq, Repr

/-- The string value of each Keys member, as written in the enum body. -/
def Keys.code : Keys → String
  | .NULL => "\uE000"
  | .CANCEL => "\uE001"
  | .HELP => "\uE002"
  | .BACK_SPACE => "\uE003"
  | .TAB => "\uE004"
  | .CLEAR => "\uE005"
  | .RETURN => "\uE006"
  | .ENTER => "\uE007"
  | .SHIFT => "\uE008"
  | .LEFT_SHIFT => "\uE008"
  | .CONTROL => "\uE009"
  | .LEFT_CONTROL => "\uE009"
  | .ALT => "\uE00A"
  | .LEFT_ALT => "\uE00A"
  | .PAUSE => "\uE00B"
  | .ESCAPE => "\uE00C"
  | .SPACE => "\uE00D"
  | .PAGE_UP => "\uE00E"
  | .PAGE_DOWN => "\uE00F"
  | .END => "\uE010"
  | .HOME => "\uE011"
  | .LEFT => "\uE012"
  | .ARROW_LEFT => "\uE012"
  | .UP => "\uE013"
  | .ARROW_UP => "\uE013"
  | .RIGHT => "\uE014"
  | .ARROW_RIGHT => "\uE014"
  | .DOWN => "\uE015"
  | .ARROW_DOWN => "\uE015"
  | .INSERT => "\uE016"
  | .DELETE => "\uE017"
  | .SEMICOLON => "\uE018"
  | .EQUALS => "\uE019"
  | .NUMPAD0 => "\uE01A"
  | .NUMPAD1 => "\uE01B"
  | .NUMPAD2 => "\uE01C"
  | .NUMPAD3 => "\uE01D"
  | .NUMPAD4 => "\uE01E"
  | .NUMPAD5 => "\uE01F"
  | .NUMPAD6 => "\uE020"
  | .NUMPAD7 => "\uE021"
  | .NUMPAD8 => "\uE022"
  | .NUMPAD9 => "\uE023"
  | .MULTIPLY => "\uE024"
  | .ADD => "\uE025"
  | .SEPARATOR => "\uE026"
  | .SUBTRACT => "\uE027"
  | .DECIMAL => "\uE028"
  | .DIVIDE => "\uE029"
  | .F1 => "\uE031"
  | .F2 => "\uE032"
  | .F3 => "\uE033"
  | .F4 => "\uE034"
  | .F5 => "\uE035"
  | .F6 => "\uE036"
  | .F7 => "\uE037"
  | .F8 => "\uE038"
  | .F9 => "\uE039"
  | .F10 => "\uE03A"
  | .F11 => "\uE03B"
  | .F12 => "\uE03C"
  | .COMMAND => "\uE03D"
  | .META => "\uE03D"
  | .ZENKAKU_HANKAKU => "\uE040"

/-- The top-level constant bearing the same name as each Keys member. -/
def Keys.topLevel : Keys → String
  | .NULL => gemini.NULL
  | .CANCEL => gemini.CANCEL
  | .HELP => gemini.HELP
  | .BACK_SPACE => gemini.BACK_SPACE
  | .TAB => gemini.TAB
  | .CLEAR => gemini.CLEAR
  | .RETURN => gemini.RETURN
  | .ENTER => gemini.ENTER
  | .SHIFT => gemini.SHIFT
  | .LEFT_SHIFT => gemini.LEFT_SHIFT
  | .CONTROL => gemini.CONTROL
  | .LEFT_CONTROL => gemini.LEFT_CONTROL
  | .ALT => gemini.ALT
  | .LEFT_ALT => gemini.LEFT_ALT
  | .PAUSE => gemini.PAUSE
  | .ESCAPE => gemini.ESCAPE
  | .SPACE => gemini.SPACE
  | .PAGE_UP => gemini.PAGE_UP
  | .PAGE_DOWN => gemini.PAGE_DOWN
  | .END => gemini.END
  | .HOME => gemini.HOME
  | .LEFT => gemini.LEFT
  | .ARROW_LEFT => gemini.ARROW_LEFT
  | .UP => gemini.UP
  | .ARROW_UP => gemini.ARROW_UP
  | .RIGHT => gemini.RIGHT
  | .ARROW_RIGHT => gemini.ARROW_RIGHT
  | .DOWN => gemini.DOWN
  | .ARROW_DOWN => gemini.ARROW_DOWN
  | .INSERT => gemini.INSERT
  | .DELETE => gemini.DELETE
  | .SEMICOLON => gemini.SEMICOLON
  | .EQUALS => gemini.EQUALS
  | .NUMPAD0 => gemini.NUMPAD0
  | .NUMPAD1 => gemini.NUMPAD1
  | .NUMPAD2 => gemini.NUMPAD2
  | .NUMPAD3 => gemini.NUMPAD3
  | .NUMPAD4 => gemini.NUMPAD4
  | .NUMPAD5 => gemini.NUMPAD5
  | .NUMPAD6 => gemini.NUMPAD6
  | .NUMPAD7 => gemini.NUMPAD7
  | .NUMPAD8 => gemini.NUMPAD8
  | .NUMPAD9 => gemini.NUMPAD9
  | .MULTIPLY => gemini.MULTIPLY
  | .ADD => gemini.ADD
  | .SEPARATOR => gemini.SEPARATOR
  | .SUBTRACT => gemini.SUBTRACT
  | .DECIMAL => gemini.DECIMAL
  | .DIVIDE => gemini.DIVIDE
  | .F1 => gemini.F1
  | .F2 => gemini.F2
  | .F3 => gemini.F3
  | .F4 => gemini.F4
  | .F5 => gemini.F5
  | .F6 => gemini.F6
  | .F7 => gemini.F7
  | .F8 => gemini.F8
  | .F9 => gemini.F9
  | .F10 => gemini.F10
  | .F11 => gemini.F11
  | .F12 => gemini.F12
  | .COMMAND => gemini.COMMAND
  | .META => gemini.META
  | .ZENKAKU_HANKAKU => gemini.ZENKAKU_HANKAKU


/-! ## Selectors, elements and actions -/

/-- A CSS selector string. -/
abbrev Selector := String

/-- Elements of the live document are opaque identifiers. -/
abbrev Element := Nat

/-- A selector argument: a single string or a list of alternatives
(`string | string[]` in the declarations). -/
inductive SelectorArg where
  | one (s : Selector)
  | many (ss : List Selector)

/-- The selector list denoted by a selector argument. -/
def SelectorArg.toList : SelectorArg → List Selector
  | .one s => [s]
  | .many ss => ss

/-- The `Found` interface: a lazy element handle carrying only its selector. -/
structure Found where
  sel : SelectorArg

/-- An element argument of an action: a raw selector or a `Found` handle. -/
inductive ElementArg where
  | raw (s : Selector)
  | found (f : Found)

/-- The `Coords` interface. -/
structure Coords where
  x : Int
  y : Int
deriving DecidableEq, Repr

/-- Modelled from the spec (§3 ActionSequence): the missing Action Sequencer
implementation.  An action record carries its operation-specific parameters;
`mouseDown` and `mouseUp` store the resolved button (the declarations state
that the left button is used when the parameter is omitted). -/
inductive Action where
  | click (el : ElementArg)
  | doubleClick (el : ElementArg)
  | mouseDown (el : ElementArg) (button : MouseButton)
  | mouseUp (el : Option ElementArg) (button : MouseButton)
  | mouseMove (el : ElementArg) (offset : Option Coords)
  | wait (milliseconds : Nat)
  | sendKeys (el : ElementArg) (key : String)

/-- Modelled from the spec (§4.4 Action Sequencer): each `Actions` method
appends one record to the sequence; an omitted `button` defaults to the left
button, as the `MouseButton` documentation states. -/
def Actions.mouseDown (seq : List Action) (el : ElementArg)
    (button : Option MouseButton) : List Action :=
  seq ++ [Action.mouseDown el (button.getD MouseButton.left)]

/-! ## Browser matchers and skip rules -/

/-- Modelled from the spec (§4.2 Browser Filter Engine): a skip/browsers
matcher is an exact browser id or a regular expression; regular expressions
are modelled as decidable predicates on browser ids. -/
inductive BrowserMatcher where
  | exact (id : String)
  | regex (test : String → Bool)

/-- Whether a matcher matches a browser id. -/
def BrowserMatcher.matches : BrowserMatcher → String → Bool
  | .exact i, b => i == b
  | .regex t, b => t b

/-- One accumulated skip rule.  `matcher = none` is the rule produced by a
no-argument `skip()` call, which skips all browsers.  The comment is carried
through to reporting only. -/
structure SkipRule where
  matcher : Option BrowserMatcher
  comment : Option String

/-- Whether a skip rule matches a browser id. -/
def SkipRule.matches (r : SkipRule) (b : String) : Bool :=
  match r.matcher with
  | none => true
  | some m => m.matches b

/-- The argument shapes accepted by `skip` and `browsers`: no argument, a
single matcher, or a list of matchers. -/
inductive SkipArg where
  | all
  | one (m : BrowserMatcher)
  | many (ms : List BrowserMatcher)

/-- The skip rules contributed by one `skip` call. -/
def SkipArg.toRules (a : SkipArg) (comment : Option String) : List SkipRule :=
  match a with
  | .all => [⟨none, comment⟩]
  | .one m => [⟨some m, comment⟩]
  | .many ms => ms.map (fun m => ⟨some m, comment⟩)

/-! ## Suites and the suite builder -/

/-- Modelled from the spec (§3 Suite): the inheritable configuration fields of
a suite.  A `none` field is unset. -/
structure SuiteConfig where
  url : Option String
  captureElements : Option (List Selector)
  tolerance : Option ℚ

/-- The configuration with every field unset. -/
def SuiteConfig.unset : SuiteConfig := ⟨none, none, none⟩

/-- Field-wise merge: an override field wins over the inherited one. -/
def SuiteConfig.merge (o i : SuiteConfig) : SuiteConfig :=
  ⟨o.url.orElse (fun _ => i.url),
   o.captureElements.orElse (fun _ => i.captureElements),
   o.tolerance.orElse (fun _ => i.tolerance)⟩

/-- Modelled from the spec (§3 State): a named capture state with its optional
per-state tolerance override and recorded action sequence. -/
structure State where
  name : String
  tolerance : Option ℚ
  actions : List Action

/-- Modelled from the spec (§3 Suite, §4.1 Suite Tree): one suite record.
`overrides` holds the fields set directly on this suite by the builder;
`inherited` is the snapshot of the parent's resolved configuration taken at
child-creation time (copy-by-value, frozen thereafter). -/
structure Suite where
  name : String
  overrides : SuiteConfig
  inherited : SuiteConfig
  skipRules : List SkipRule
  browserFilter : Option (List BrowserMatcher)
  states : List State

/-- The resolved configuration of a suite: its own overrides, falling back to
the inherited snapshot. -/
def Suite.effectiveConfig (s : Suite) : SuiteConfig :=
  s.overrides.merge s.inherited

/-- A fresh root suite with the given name. -/
def Suite.mk0 (name : String) : Suite :=
  ⟨name, SuiteConfig.unset, SuiteConfig.unset, [], none, []⟩

/-- Modelled from the spec (§4.1): nested-suite creation snapshots the
parent's resolved configuration into the child's `inherited` slot; the child
starts with no overrides of its own.  Skip rules apply to nested suites, so
they are copied as well. -/
def Suite.createChild (parent : Suite) (name : String) : Suite :=
  ⟨name, SuiteConfig.unset, parent.effectiveConfig, parent.skipRules,
   parent.browserFilter, []⟩

/-- `setUrl` overwrites the suite's own url field. -/
def Suite.setUrl (s : Suite) (url : String) : Suite :=
  { s with overrides := { s.overrides with url := some url } }

/-- `setCaptureElements(selector, ...restSelectors)` stores the flattened
ordered selector list. -/
def Suite.setCaptureElements (s : Suite) (selector : SelectorArg)
    (restSelectors : List Selector) : Suite :=
  { s with overrides :=
      { s.overrides with captureElements := some (selector.toList ++ restSelectors) } }

/-- `setTolerance` overrides the tolerance for the whole suite. -/
def Suite.setTolerance (s : Suite) (value : ℚ) : Suite :=
  { s with overrides := { s.overrides with tolerance := some value } }

/-- `skip`: all browsers from subsequent calls are added to the skip list. -/
def Suite.skip (s : Suite) (browser : SkipArg) (comment : Option String) : Suite :=
  { s with skipRules := s.skipRules ++ browser.toRules comment }

/-- `capture(stateName, options?, callback?)` appends one state, recording the
optional per-state tolerance override and the action sequence built by the
callback. -/
def Suite.capture (s : Suite) (stateName : String) (tolerance : Option ℚ)
    (actions : List Action) : Suite :=
  { s with states := s.states ++ [⟨stateName, tolerance, actions⟩] }

/-- Modelled from the spec (§4.2): a browser is admitted when the allow-list,
if present, matches it (allow-list wins when present), and otherwise when no
accumulated skip rule matches it. -/
def Suite.admits (s : Suite) (browserId : String) : Bool :=
  match s.browserFilter with
  | some allow => allow.any (fun m => m.matches browserId)
  | none => !(s.skipRules.any (fun r => r.matches browserId))

/-! ## Element resolver -/

/-- The live document, as the automation backend exposes it: the element a
selector resolves to, if any. -/
abbrev DOM := Selector → Option Element

/-- First match across the alternatives of a selector argument. -/
def DOM.firstMatch (dom : DOM) : List Selector → Option Element
  | [] => none
  | s :: ss => (dom s).orElse (fun _ => dom.firstMatch ss)

/-- The lookup denoted by a handle's selector argument. -/
def DOM.lookup (dom : DOM) : SelectorArg → Option Element
  | .one s => dom s
  | .many ss => dom.firstMatch ss

/-- A handle returned by `find`: the selector plus an identity distinguishing
handle instances (two `find` calls on the same selector are distinct
instances). -/
structure Handle where
  id : Nat
  sel : SelectorArg

/-- The resolver's bookkeeping: the per-handle memoisation slot and, for the
purpose of stating the laziness contract, the number of live-document queries
performed for each handle instance. -/
structure ResolverState where
  cache : Nat → Option (Option Element)
  queries : Nat → Nat

/-- The resolver state before any resolution. -/
def ResolverState.init : ResolverState :=
  ⟨fun _ => none, fun _ => 0⟩

/-- Modelled from the spec (§4.3 Element Resolver): `resolve` returns the
memoised result when the handle's slot is populated, and otherwise performs
one live-document lookup and stores the result on the handle. -/
def resolve (dom : DOM) (h : Handle) (σ : ResolverState) :
    Option Element × ResolverState :=
  match σ.cache h.id with
  | some r => (r, σ)
  | none =>
    let r := dom.lookup h.sel
    (r, ⟨fun i => if i = h.id then some r else σ.cache i,
         fun i => if i = h.id then σ.queries i + 1 else σ.queries i⟩)

/-- `n` successive resolutions of the same handle (one per action using it),
returning every result and the final resolver state. -/
def resolveMany (dom : DOM) (h : Handle) :
    Nat → ResolverState → List (Option Element) × ResolverState
  | 0, σ => ([], σ)
  | n + 1, σ =>
    let p := resolve dom h σ
    let q := resolveMany dom h n p.2
    (p.1 :: q.1, q.2)

/-! ## Capture scheduler -/

/-- The observable steps of one (suite, browser) execution unit. -/
inductive Event where
  | navigate (url : String)
  | beforeHook
  | runState (name : String)
  | captureState (name : String)
  | afterHook

/-- Whether an event is a navigation (page load). -/
def Event.isNavigate : Event → Bool
  | .navigate _ => true
  | _ => false

/-- The state name of a `runState` event, if any. -/
def Event.runName : Event → Option String
  | .runState n => some n
  | _ => none

/-- Modelled from the spec (§4.5 Capture Scheduler): the ordered execution
plan of one (suite, browser) unit — navigate once, run the before-hook, run
and capture each state in declaration order with no reload in between, run
the after-hook. -/
def Suite.unitPlan (s : Suite) (_browserId : String) : List Event :=
  Event.navigate (s.effectiveConfig.url.getD "") ::
  Event.beforeHook ::
  ((s.states.flatMap (fun st => [Event.runState st.name, Event.captureState st.name])) ++
    [Event.afterHook])

/-- Modelled from the spec (§4.5): per-state tolerance resolution —
state-level override if present, else suite-level tolerance, else the global
configuration default. -/
def stateTolerance (globalDefault : ℚ) (s : Suite) (st : State) : ℚ :=
  (st.tolerance.orElse (fun _ => s.effectiveConfig.tolerance)).getD globalDefault

/-- The outcome of one state within a (suite, browser) unit. -/
inductive Outcome where
  | captured
  | failed
deriving DecidableEq, Repr

/-- Modelled from the spec (§3 Suite, §4.3, §7): running one (suite, browser)
unit against a document.  The capture-element selectors must resolve to at
least one element; otherwise every test (state) of the suite fails for that
browser. -/
def runUnit (dom : DOM) (s : Suite) : List (String × Outcome) :=
  let sels := s.effectiveConfig.captureElements.getD []
  if sels.any (fun sel => (dom sel).isSome) then
    s.states.map (fun st => (st.name, Outcome.captured))
  else
    s.states.map (fun st => (st.name, Outcome.failed))

/-- Modelled from the spec (§5): independent (suite, browser) units; each
unit's outcome depends only on its own document and suite. -/
def runAll (units : List (DOM × Suite)) : List (List (String × Outcome)) :=
  units.map (fun u => runUnit u.1 u.2)

/-! ## Suite tree, mutation locality and build-time validation -/

/-- The suite hierarchy: a suite record with its child subtrees. -/
inductive SuiteTree where
  | node (root : Suite) (children : List SuiteTree)

/-- The suite record at the root of a tree. -/
def SuiteTree.root : SuiteTree → Suite
  | .node r _ => r

/-- The child subtrees of a tree. -/
def SuiteTree.children : SuiteTree → List SuiteTree
  | .node _ cs => cs

/-- Replace the element at one position of a list, leaving the rest alone. -/
def modifyAt : List α → Nat → (α → α) → List α
  | [], _, _ => []
  | x :: xs, 0, f => f x :: xs
  | x :: xs, n + 1, f => x :: modifyAt xs n f

/-- Nested-suite creation at the tree level: append a child snapshotting the
parent's resolved configuration. -/
def SuiteTree.addChild (t : SuiteTree) (name : String) : SuiteTree :=
  .node t.root (t.children ++ [.node (t.root.createChild name) []])

/-- Apply a builder mutation to the `i`-th child suite only. -/
def SuiteTree.overrideChild (t : SuiteTree) (i : Nat) (f : Suite → Suite) :
    SuiteTree :=
  .node t.root (modifyAt t.children i (fun c => .node (f c.root) c.children))

/-- List without duplicate entries, checked front to back. -/
def dupFree : List String → Bool
  | [] => true
  | x :: xs => !(xs.contains x) && dupFree xs

/-- The names of the root suites of a list of trees. -/
def childNames (cs : List SuiteTree) : List String :=
  cs.map (fun c => c.root.name)

mutual
/-- Modelled from the spec (§7): build-time structural validation — the name
is non-empty, state names are unique within the suite, sibling suite names
are unique, and every child subtree is itself valid. -/
def SuiteTree.validate : SuiteTree → Bool
  | .node r cs =>
    (r.name != "") && dupFree (r.states.map State.name) &&
      dupFree (childNames cs) && validateAll cs

/-- Validity of every tree in a list. -/
def validateAll : List SuiteTree → Bool
  | [] => true
  | t :: ts => t.validate && validateAll ts
end

mutual
/-- Every suite record of a tree, root first. -/
def SuiteTree.allSuites : SuiteTree → List Suite
  | .node r cs => r :: allSuitesList cs

/-- Every suite record of a list of trees. -/
def allSuitesList : List SuiteTree → List Suite
  | [] => []
  | t :: ts => t.allSuites ++ allSuitesList ts
end

/-- The errors of the spec's taxonomy (§7). -/
inductive GeminiError where
  | validationError
  | elementNotFoundError
  | timeoutError
  | backendError
deriving DecidableEq, Repr

/-- Modelled from the spec (§7): building validates the suite tree first; a
`ValidationError` is fatal at suite-build time and aborts the whole run
before any scheduling or execution takes place. -/
def buildAndRun (t : SuiteTree) (dom : DOM) :
    Except GeminiError (List (List (String × Outcome))) :=
  if t.validate then
    Except.ok (t.allSuites.map (fun s => runUnit dom s))
  else
    Except.error GeminiError.validationError

/-! ## Helper lemmas -/

theorem modifyAt_getElem_ne {α : Type} (l : List α) (f : α → α) :
    ∀ i j, j ≠ i → (modifyAt l i f)[j]? = l[j]? := by
  induction l with
  | nil => intro i j _; simp [modifyAt]
  | cons x xs ih =>
    intro i j hij
    cases i with
    | zero =>
      cases j with
      | zero => exact absurd rfl hij
      | succ j => simp [modifyAt]
    | succ i =>
      cases j with
      | zero => simp [modifyAt]
      | succ j => simpa [modifyAt] using ih i j (fun hh => hij (by rw [hh]))

theorem modifyAt_getElem_eq {α : Type} (l : List α) (f : α → α) :
    ∀ i, (modifyAt l i f)[i]? = (l[i]?).map f := by
  induction l with
  | nil => intro i; simp [modifyAt]
  | cons x xs ih =>
    intro i
    cases i with
    | zero => simp [modifyAt]
    | succ i => simpa [modifyAt] using ih i

theorem stateEvents_countP_navigate (sts : List State) :
    ((sts.flatMap (fun st => [Event.runState st.name, Event.captureState st.name])).countP
      Event.isNavigate) = 0 := by
  induction sts with
  | nil => rfl
  | cons st sts ih =>
    simp [List.countP_cons, Event.isNavigate, ih]

theorem stateEvents_run_names (sts : List State) :
    (sts.flatMap (fun st => [Event.runState st.name, Event.captureState st.name])).filterMap
      Event.runName = sts.map State.name := by
  induction sts with
  | nil => rfl
  | cons st sts ih => simp [Event.runName, ih]

theorem resolve_cached (dom : DOM) (h : Handle) (σ : ResolverState) (r : Option Element)
    (hc : σ.cache h.id = some r) : resolve dom h σ = (r, σ) := by
  simp [resolve, hc]

theorem resolveMany_cached (dom : DOM) (h : Handle) (σ : ResolverState) (r : Option Element)
    (hc : σ.cache h.id = some r) (n : Nat) :
    resolveMany dom h n σ = (List.replicate n r, σ) := by
  induction n with
  | zero => rfl
  | succ n ih => simp [resolveMany, resolve_cached dom h σ r hc, ih, List.replicate_succ]

/-! ## Claim theorems -/

/-- C9: The MouseButton enumeration has exactly three members, encoded as
left = 0, middle = 1, right = 2 by TypeScript auto-numbering, and the left
button is the recorded default when a mouse action's button parameter is
omitted. -/
theorem mouse_button_encoding_and_default :
    MouseButton.toNat MouseButton.left = 0 ∧
    MouseButton.toNat MouseButton.middle = 1 ∧
    MouseButton.toNat MouseButton.right = 2 ∧
    (∀ b : MouseButton,
      b = MouseButton.left ∨ b = MouseButton.middle ∨ b = MouseButton.right) ∧
    (∀ (seq : List Action) (el : ElementArg),
      Actions.mouseDown seq el none = seq ++ [Action.mouseDown el MouseButton.left]) := by
  refine ⟨rfl, rfl, rfl, ?_, ?_⟩
  · intro b; cases b <;> simp
  · intro seq el; rfl

/-- C10: Every member of the Keys enumeration is string-equal to the top-level
gemini constant of the same name, and every documented alias pair denotes the
identical code point. -/
theorem keys_equal_constants_and_aliases :
    (∀ k : Keys, Keys.code k = Keys.topLevel k) ∧
    Keys.code Keys.SHIFT = Keys.code Keys.LEFT_SHIFT ∧
    Keys.code Keys.CONTROL = Keys.code Keys.LEFT_CONTROL ∧
    Keys.code Keys.ALT = Keys.code Keys.LEFT_ALT ∧
    Keys.code Keys.LEFT = Keys.code Keys.ARROW_LEFT ∧
    Keys.code Keys.UP = Keys.code Keys.ARROW_UP ∧
    Keys.code Keys.RIGHT = Keys.code Keys.ARROW_RIGHT ∧
    Keys.code Keys.DOWN = Keys.code Keys.ARROW_DOWN ∧
    Keys.code Keys.COMMAND = Keys.code Keys.META :=
  ⟨fun k => by cases k <;> rfl, rfl, rfl, rfl, rfl, rfl, rfl, rfl, rfl⟩

/-- C3: setCaptureElements called with a list argument stores exactly the same
ordered selector sequence (indeed, produces the same suite) as the call with
the same selectors passed as multiple string arguments. -/
theorem setCaptureElements_list_vararg_equiv (s : Suite) (a : Selector)
    (rest : List Selector) :
    s.setCaptureElements (SelectorArg.many (a :: rest)) [] =
      s.setCaptureElements (SelectorArg.one a) rest := by
  simp [Suite.setCaptureElements, SelectorArg.toList]

/-- C4: For every suite and browser id, the chained calls skip('a').skip(/b/)
admit exactly the browsers admitted by the single call skip(['a', /b/]):
successive skip calls accumulate as the union of their skip predicates,
whatever comments accompany them. -/
theorem skip_accumulates_as_union (s : Suite) (a : String) (r : String → Bool)
    (c1 c2 c3 : Option String) (b : String) :
    ((s.skip (SkipArg.one (BrowserMatcher.exact a)) c1).skip
        (SkipArg.one (BrowserMatcher.regex r)) c2).admits b =
      (s.skip (SkipArg.many [BrowserMatcher.exact a, BrowserMatcher.regex r]) c3).admits b := by
  cases hbf : s.browserFilter <;>
    simp [Suite.skip, Suite.admits, SkipArg.toRules, hbf, List.any_append,
      SkipRule.matches, Bool.or_assoc]

/-- C1: For every (suite, browser) execution unit, the plan contains exactly
one navigation and runs the suite's states in their order of definition, with
no reload between consecutive states. -/
theorem states_in_order_single_navigation (s : Suite) (b : String) :
    ((s.unitPlan b).countP Event.isNavigate) = 1 ∧
    (s.unitPlan b).filterMap Event.runName = s.states.map State.name := by
  constructor
  · simp [Suite.unitPlan, List.countP_cons, Event.isNavigate,
      stateEvents_countP_navigate s.states]
  · simp [Suite.unitPlan, Event.runName, stateEvents_run_names s.states]

/-- C2: A freshly created child suite resolves every unset field to the
parent's resolved value at creation time (its own overrides start empty), and
applying a builder override to one child of a suite tree changes neither the
parent's record nor any sibling subtree. -/
theorem child_inheritance_and_override_locality
    (p : Suite) (nm : String) (t : SuiteTree) (i j : Nat) (f : Suite → Suite)
    (hij : j ≠ i) :
    (p.createChild nm).effectiveConfig = p.effectiveConfig ∧
    (p.createChild nm).overrides = SuiteConfig.unset ∧
    (t.overrideChild i f).root = t.root ∧
    (t.overrideChild i f).children[j]? = t.children[j]? ∧
    (t.overrideChild i f).children[i]? =
      (t.children[i]?).map (fun c => SuiteTree.node (f c.root) c.children) := by
  refine ⟨rfl, rfl, ?_, ?_, ?_⟩
  · cases t; rfl
  · cases t with
    | node r cs => simpa [SuiteTree.overrideChild] using
        modifyAt_getElem_ne cs (fun c => SuiteTree.node (f c.root) c.children) i j hij
  · cases t with
    | node r cs => simpa [SuiteTree.overrideChild] using
        modifyAt_getElem_eq cs (fun c => SuiteTree.node (f c.root) c.children) i

/-- Witness for C2 at a concrete tree: a parent with two children, overriding
child 0 with setUrl while inspecting child 1. -/
theorem child_inheritance_and_override_locality_witness :
    (1 : Nat) ≠ 0 ∧
    ((((Suite.mk0 "p").setUrl "/a").createChild "c").effectiveConfig =
        ((Suite.mk0 "p").setUrl "/a").effectiveConfig ∧
    (((Suite.mk0 "p").setUrl "/a").createChild "c").overrides = SuiteConfig.unset ∧
    ((((SuiteTree.node (Suite.mk0 "p") []).addChild "c1").addChild "c2").overrideChild 0
        (fun c => c.setUrl "/x")).root =
      (((SuiteTree.node (Suite.mk0 "p") []).addChild "c1").addChild "c2").root ∧
    ((((SuiteTree.node (Suite.mk0 "p") []).addChild "c1").addChild "c2").overrideChild 0
        (fun c => c.setUrl "/x")).children[1]? =
      ((((SuiteTree.node (Suite.mk0 "p") []).addChild "c1").addChild "c2")).children[1]? ∧
    ((((SuiteTree.node (Suite.mk0 "p") []).addChild "c1").addChild "c2").overrideChild 0
        (fun c => c.setUrl "/x")).children[0]? =
      (((((SuiteTree.node (Suite.mk0 "p") []).addChild "c1").addChild "c2")).children[0]?).map
        (fun c => SuiteTree.node (c.root.setUrl "/x") c.children)) :=
  ⟨by decide,
   child_inheritance_and_override_locality ((Suite.mk0 "p").setUrl "/a") "c"
     (((SuiteTree.node (Suite.mk0 "p") []).addChild "c1").addChild "c2") 0 1
     (fun c => c.setUrl "/x") (by decide)⟩

/-- C5: Resolving a handle any number of times performs the underlying
document lookup at most once (exactly once as soon as the handle is used at
all), and every resolution returns the memoised lookup result. -/
theorem find_handle_resolves_at_most_once (dom : DOM) (h : Handle)
    (σ : ResolverState) (hc : σ.cache h.id = none) (hq : σ.queries h.id = 0)
    (n : Nat) :
    (resolveMany dom h n σ).2.queries h.id = min n 1 ∧
    (resolveMany dom h n σ).1 = List.replicate n (dom.lookup h.sel) := by
  cases n with
  | zero => simp [resolveMany, hq]
  | succ n =>
    have hres : resolve dom h σ =
        (dom.lookup h.sel,
         ⟨fun i => if i = h.id then some (dom.lookup h.sel) else σ.cache i,
          fun i => if i = h.id then σ.queries i + 1 else σ.queries i⟩) := by
      simp [resolve, hc]
    have hrest := resolveMany_cached dom h
      ⟨fun i => if i = h.id then some (dom.lookup h.sel) else σ.cache i,
       fun i => if i = h.id then σ.queries i + 1 else σ.queries i⟩
      (dom.lookup h.sel) (by simp) n
    constructor
    · simp [resolveMany, hres, hrest, hq,
        Nat.min_eq_right (Nat.succ_le_succ (Nat.zero_le n))]
    · simp [resolveMany, hres, hrest, List.replicate_succ]

/-- Witness for C5: a fresh handle resolved three times against a concrete
document queries it exactly once. -/
theorem find_handle_resolves_at_most_once_witness :
    (ResolverState.init.cache 0 = none ∧ ResolverState.init.queries 0 = 0) ∧
    (resolveMany (fun _ => some 5) ⟨0, SelectorArg.one ".button"⟩ 3
        ResolverState.init).2.queries 0 = min 3 1 ∧
    (resolveMany (fun _ => some 5) ⟨0, SelectorArg.one ".button"⟩ 3
        ResolverState.init).1 =
      List.replicate 3 (DOM.lookup (fun _ => some 5) (SelectorArg.one ".button")) :=
  ⟨⟨rfl, rfl⟩,
   find_handle_resolves_at_most_once (fun _ => some 5) ⟨0, SelectorArg.one ".button"⟩
     ResolverState.init rfl rfl 3⟩

/-- C6: A state-level tolerance override wins over any suite-level value; a
state without one uses the suite's resolved tolerance, and absent that the
global configuration default; in particular capture('x', tolerance 1) applies
tolerance 1 even when the suite has setTolerance(3.5). -/
theorem state_tolerance_overrides_suite (g tv : ℚ) (s : Suite) (st : State)
    (h : st.tolerance = some tv) :
    stateTolerance g s st = tv ∧
    (∀ st2 : State, st2.tolerance = none →
      stateTolerance g s st2 = s.effectiveConfig.tolerance.getD g) ∧
    (∀ base : Suite,
      ((base.setTolerance (7/2)).capture "x" (some 1) []).states.getLast? =
        some ⟨"x", some 1, []⟩ ∧
      stateTolerance g (base.setTolerance (7/2)) ⟨"x", some 1, []⟩ = 1) := by
  refine ⟨?_, ?_, ?_⟩
  · simp [stateTolerance, h, Option.orElse]
  · intro st2 h2; simp [stateTolerance, h2, Option.orElse]
  · intro base
    constructor
    · simp [Suite.capture, Suite.setTolerance]
    · simp [stateTolerance, Option.orElse]

/-- Witness for C6 at a concrete state with tolerance 1 in a suite whose
tolerance is 7/2. -/
theorem state_tolerance_overrides_suite_witness :
    (State.mk "x" (some 1) []).tolerance = some 1 ∧
    stateTolerance 0 ((Suite.mk0 "s").setTolerance (7/2)) ⟨"x", some 1, []⟩ = 1 :=
  ⟨rfl,
   (state_tolerance_overrides_suite 0 1 ((Suite.mk0 "s").setTolerance (7/2))
     ⟨"x", some 1, []⟩ rfl).1⟩

/-- C7: If none of a suite's capture-element selectors matches any element of
the document, every state of that (suite, browser) unit fails — and units are
independent: each entry of a whole run is exactly its own unit's result,
unaffected by the others. -/
theorem unmatched_capture_elements_fail_suite (dom : DOM) (s : Suite)
    (h : ∀ sel ∈ s.effectiveConfig.captureElements.getD [], dom sel = none) :
    (∀ o ∈ runUnit dom s, o.2 = Outcome.failed) ∧
    (runUnit dom s).map Prod.fst = s.states.map State.name ∧
    (∀ (units : List (DOM × Suite)) (i : Nat),
      (runAll units)[i]? = (units[i]?).map (fun u => runUnit u.1 u.2)) := by
  have hany : (s.effectiveConfig.captureElements.getD []).any
      (fun sel => (dom sel).isSome) = false := by
    simp only [List.any_eq_false]
    intro sel hsel
    simp [h sel hsel]
  refine ⟨?_, ?_, ?_⟩
  · intro o ho
    have hm : o ∈ s.states.map (fun st => (st.name, Outcome.failed)) := by
      simpa [runUnit, hany] using ho
    obtain ⟨st, _, rfl⟩ := List.mem_map.mp hm
    rfl
  · simp [runUnit, hany]
  · intro units i; simp [runAll]

/-- Witness for C7: a one-state suite whose only capture selector matches
nothing in an empty document. -/
theorem unmatched_capture_elements_fail_suite_witness :
    (∀ sel ∈ (((Suite.mk0 "s").setCaptureElements (SelectorArg.one ".a") []).capture
        "st" none []).effectiveConfig.captureElements.getD [],
      (fun _ : Selector => (none : Option Element)) sel = none) ∧
    ((∀ o ∈ runUnit (fun _ => none)
        (((Suite.mk0 "s").setCaptureElements (SelectorArg.one ".a") []).capture
          "st" none []), o.2 = Outcome.failed) ∧
    (runUnit (fun _ => none)
        (((Suite.mk0 "s").setCaptureElements (SelectorArg.one ".a") []).capture
          "st" none [])).map Prod.fst =
      ((((Suite.mk0 "s").setCaptureElements (SelectorArg.one ".a") []).capture
          "st" none []).states.map State.name) ∧
    (∀ (units : List (DOM × Suite)) (i : Nat),
      (runAll units)[i]? = (units[i]?).map (fun u => runUnit u.1 u.2))) :=
  ⟨fun _ _ => rfl,
   unmatched_capture_elements_fail_suite (fun _ => none)
     (((Suite.mk0 "s").setCaptureElements (SelectorArg.one ".a") []).capture
       "st" none []) (fun _ _ => rfl)⟩

/-- C8: An empty suite name, duplicate state names within a suite, or
duplicate sibling suite names make the build fail with a ValidationError,
aborting the whole run before any unit is scheduled or executed. -/
theorem invalid_suite_definition_aborts_run
    (r : Suite) (cs : List SuiteTree) (dom : DOM)
    (h : r.name = "" ∨ dupFree (r.states.map State.name) = false ∨
         dupFree (childNames cs) = false) :
    buildAndRun (SuiteTree.node r cs) dom = Except.error GeminiError.validationError := by
  have hv : (SuiteTree.node r cs).validate = false := by
    rcases h with h | h | h <;> simp [SuiteTree.validate, h]
  simp [buildAndRun, hv]

/-- Witness for C8: a suite constructed with the empty name. -/
theorem invalid_suite_definition_aborts_run_witness :
    ((Suite.mk0 "").name = "" ∨ dupFree ((Suite.mk0 "").states.map State.name) = false ∨
      dupFree (childNames []) = false) ∧
    buildAndRun (SuiteTree.node (Suite.mk0 "") []) (fun _ => none) =
      Except.error GeminiError.validationError :=
  ⟨Or.inl rfl,
   invalid_suite_definition_aborts_run (Suite.mk0 "") [] (fun _ => none) (Or.inl rfl)⟩

end gemini
